import Mathlib

/-!
Verification of the AQI dashboard core (src/app.py).

The dashboard fetches the most recent sensor rows from a remote store
(`get_latest_data`), classifies the latest AQI value into a severity band
(the if/elif chain at app.py lines 85-90), builds chronologically sorted
chart series (`df.sort_values('Timestamp')`), and renders either a data
frame or an explicit empty indicator ("Connecting to cloud..." in the live
view, "No data found." in the history view).

Modelling choices:
* A stored row (`sensordata` table) is `ReadingRecord`; numeric sensor
  fields are rationals (the store may hold non-integral values), `id` is a
  natural number, `created_at` is an integer instant (e.g. epoch seconds).
* `pd.to_datetime(...).dt.tz_convert('Asia/Kolkata')` relabels each instant
  into the IST display zone (UTC+05:30); we model the displayed timestamp
  as the instant shifted by the fixed 19800-second offset, which preserves
  the ordering of instants exactly as the zone conversion does.
* Python's `int(...)` truncates toward zero; on a rational in lowest terms
  this is the T-division of numerator by denominator (`intTrunc`).
* The transport (`supabase...execute()`) either fails (the bare `except`
  path) or yields the rows ordered by `id` descending, truncated to
  `limit`; the boolean `fails` parameter models "any exception was raised".
* A Streamlit fragment rerun replaces the fragment's previous output
  wholesale, so a refresh cycle's rendered frame is a pure function of that
  cycle's fetched rows; `liveStep` takes the previous frame only to state
  that the new frame does not depend on it.
-/

namespace AqiDashboard

/-- Severity bands of the AQI classification (app.py lines 85-90). -/
inductive SeverityBand
  | Good
  | Moderate
  | UnhealthySensitive
  | Unhealthy
  | VeryUnhealthy
  | Hazardous
deriving DecidableEq, Repr

/-- The if/elif chain of app.py lines 85-90 mapping an AQI integer to its
severity band. -/
def classify (aqi : Int) : SeverityBand :=
  if aqi ≤ 50 then .Good
  else if aqi ≤ 100 then .Moderate
  else if aqi ≤ 150 then .UnhealthySensitive
  else if aqi ≤ 200 then .Unhealthy
  else if aqi ≤ 300 then .VeryUnhealthy
  else .Hazardous

/-- The display color paired with each band in the same if/elif chain. -/
def bandColor : SeverityBand → String
  | .Good => "#00e400"
  | .Moderate => "#ffff00"
  | .UnhealthySensitive => "#ff7e00"
  | .Unhealthy => "#ff0000"
  | .VeryUnhealthy => "#8f3f97"
  | .Hazardous => "#7e0023"

/-- Numeric severity rank of a band, in the order the if/elif chain tests
them (Good least severe, Hazardous most severe). -/
def severityLevel : SeverityBand → Nat
  | .Good => 0
  | .Moderate => 1
  | .UnhealthySensitive => 2
  | .Unhealthy => 3
  | .VeryUnhealthy => 4
  | .Hazardous => 5

/-- One row of the `sensordata` table as fetched by the dashboard. -/
structure ReadingRecord where
  id : Nat
  created_at : Int
  mq135 : ℚ
  temperature : ℚ
  humidity : ℚ
  aqi : ℚ
deriving DecidableEq, Repr

/-- The remote query `select * ... order by id desc limit L` (app.py
line 59): rows sorted by `id` descending, truncated to `limit`. -/
def executeQuery (store : List ReadingRecord) (limit : Nat) : List ReadingRecord :=
  (List.insertionSort (fun a b => b.id ≤ a.id) store).take limit

/-- `get_latest_data` (app.py lines 56-62): one fresh query; the bare
`except` turns any transport failure into the empty list instead of
propagating it (the return type carries no error case at all). -/
def get_latest_data (store : List ReadingRecord) (fails : Bool) (limit : Nat) :
    List ReadingRecord :=
  if fails then [] else executeQuery store limit

/-- The Asia/Kolkata display timestamp of a row: `tz_convert` relabels the
stored instant into IST (UTC+05:30 = 19800 s); ordering of instants is
preserved. -/
def displayTimestamp (r : ReadingRecord) : Int :=
  r.created_at + 19800

/-- `df.sort_values('Timestamp')` (app.py lines 122 and 147): the rows
re-sorted ascending by display timestamp. -/
def sortByTimestamp (rows : List ReadingRecord) : List ReadingRecord :=
  List.insertionSort (fun a b => displayTimestamp a ≤ displayTimestamp b) rows

/-- The chart series for one metric column: the (timestamp, value) points
of the rows after the ascending re-sort. -/
def buildSeries (rows : List ReadingRecord) (metric : ReadingRecord → ℚ) :
    List (Int × ℚ) :=
  (sortByTimestamp rows).map (fun r => (displayTimestamp r, metric r))

/-- `df.iloc[0]` on the fetched frame (app.py line 78): the first row of
the newest-first batch, or failure (`none`, pandas raises IndexError) on an
empty batch. -/
def latest (rows : List ReadingRecord) : Option ReadingRecord :=
  rows.head?

/-- `int(latest['AQI'])` (app.py line 79): Python `int()` truncates toward
zero, which on a rational in lowest terms is the T-division of numerator by
denominator. -/
def intTrunc (q : ℚ) : Int :=
  Int.tdiv q.num (q.den : Int)

/-- The rendered state of the live view: either the explicit
"Connecting to cloud..." indicator (app.py line 127) or the monitor frame
with the displayed AQI, band, color, metrics, time and trend chart. -/
inductive LiveFrame
  | connecting
  | monitor (aqi : Int) (band : SeverityBand) (color : String)
      (temperature humidity : ℚ) (time : Int) (chart : List (Int × ℚ))
deriving Repr

/-- `show_live_monitor` (app.py lines 68-127) as a function of the cycle's
fetched rows: on an empty batch the info indicator, otherwise the monitor
frame built from `df.iloc[0]` with `aqi = int(latest['AQI'])`, the status
and color from the if/elif chain, and the AQI trend series over the
timestamp-sorted batch. -/
def show_live_monitor (rows : List ReadingRecord) : LiveFrame :=
  match rows with
  | [] => .connecting
  | r :: _ =>
    let aqi := intTrunc r.aqi
    let band := classify aqi
    .monitor aqi band (bandColor band) r.temperature r.humidity
      (displayTimestamp r) (buildSeries rows (fun x => x.aqi))

/-- One refresh cycle of the live fragment: a Streamlit fragment rerun
replaces the previous output wholesale, so the new frame is a function of
the cycle's own fetch only — the previous frame never survives into it. -/
def liveStep (prev : LiveFrame) (rows : List ReadingRecord) : LiveFrame :=
  show_live_monitor rows

/-- The rendered state of the history view: either the explicit
"No data found." indicator (app.py line 164) or the three-metric chart over
the timestamp-sorted rows plus the newest-first table. -/
inductive HistoryFrame
  | noData
  | history (aqiSeries temperatureSeries humiditySeries : List (Int × ℚ))
      (table : List ReadingRecord)
deriving Repr

/-- `show_history` (app.py lines 132-164) as a function of the fetched
rows: on an empty batch the "No data found." indicator, otherwise the AQI,
Temperature and Humidity series over the ascending-sorted rows and the
data log table in the original newest-first order. -/
def show_history (rows : List ReadingRecord) : HistoryFrame :=
  match rows with
  | [] => .noData
  | _ :: _ =>
    .history (buildSeries rows (fun x => x.aqi))
      (buildSeries rows (fun x => x.temperature))
      (buildSeries rows (fun x => x.humidity)) rows

instance : IsTotal ReadingRecord (fun a b => displayTimestamp a ≤ displayTimestamp b) :=
  ⟨fun a b => Int.le_total (displayTimestamp a) (displayTimestamp b)⟩

instance : IsTrans ReadingRecord (fun a b => displayTimestamp a ≤ displayTimestamp b) :=
  ⟨fun _ _ _ h₁ h₂ => le_trans h₁ h₂⟩

end AqiDashboard

namespace AqiDashboard

/-- C1: the boundary inputs of `classify` map exactly as the threshold
table dictates: 50 is Good, 51 Moderate, 300 VeryUnhealthy, 301 Hazardous,
and the six bands have the inclusive upper thresholds 50, 100, 150, 200,
300 and no bound respectively. -/
theorem classify_boundary_table :
    classify 50 = SeverityBand.Good ∧
    classify 51 = SeverityBand.Moderate ∧
    classify 300 = SeverityBand.VeryUnhealthy ∧
    classify 301 = SeverityBand.Hazardous ∧
    (∀ a : Int,
      (classify a = SeverityBand.Good ↔ a ≤ 50) ∧
      (classify a = SeverityBand.Moderate ↔ 50 < a ∧ a ≤ 100) ∧
      (classify a = SeverityBand.UnhealthySensitive ↔ 100 < a ∧ a ≤ 150) ∧
      (classify a = SeverityBand.Unhealthy ↔ 150 < a ∧ a ≤ 200) ∧
      (classify a = SeverityBand.VeryUnhealthy ↔ 200 < a ∧ a ≤ 300) ∧
      (classify a = SeverityBand.Hazardous ↔ 300 < a)) := by
  refine ⟨by decide, by decide, by decide, by decide, fun a => ?_⟩
  unfold classify
  split_ifs <;> refine ⟨?_, ?_, ?_, ?_, ?_, ?_⟩ <;> simp <;> omega

/-- C6: `classify` is monotonic: a larger AQI value is never assigned a
strictly less severe band. -/
theorem classify_monotone (a b : Int) (hab : a ≤ b) :
    severityLevel (classify a) ≤ severityLevel (classify b) := by
  unfold classify
  split_ifs <;> simp [severityLevel] <;> omega

/-- Witness for C6 at the concrete pair 10 ≤ 200. -/
theorem classify_monotone_witness :
    severityLevel (classify 10) ≤ severityLevel (classify 200) :=
  classify_monotone 10 200 (by decide)

/-- C7: `classify` is total over all integers (it is a Lean function, so it
is defined and deterministic everywhere and never throws); every value
above 300 is Hazardous with no upper bound, and every negative value falls
into the first branch, i.e. is treated as Good. -/
theorem classify_total_saturating :
    (∀ a : Int, 300 < a → classify a = SeverityBand.Hazardous) ∧
    (∀ a : Int, a < 0 → classify a = SeverityBand.Good) := by
  constructor <;> intro a h <;> unfold classify <;> split_ifs <;> first | rfl | omega

/-- Witness for C7 at 100000 (Hazardous, no upper bound) and -7 (Good). -/
theorem classify_total_saturating_witness :
    classify 100000 = SeverityBand.Hazardous ∧ classify (-7) = SeverityBand.Good :=
  ⟨classify_total_saturating.1 100000 (by decide),
   classify_total_saturating.2 (-7) (by decide)⟩

/-- C3: for every positive limit, `get_latest_data` returns the empty list
whenever the transport fails — the error is absorbed, never propagated
(the codomain has no error case) — and on success it is exactly the result
of the single query, so no retry is performed. -/
theorem get_latest_data_error_handling (store : List ReadingRecord) (limit : Nat)
    (hpos : 0 < limit) :
    get_latest_data store true limit = [] ∧
    get_latest_data store false limit = executeQuery store limit :=
  ⟨rfl, rfl⟩

/-- Witness for C3 at a one-row store and limit 50. -/
theorem get_latest_data_error_handling_witness :
    get_latest_data [⟨1, 0, 0, 0, 0, 42⟩] true 50 = [] ∧
    get_latest_data [⟨1, 0, 0, 0, 0, 42⟩] false 50 =
      executeQuery [⟨1, 0, 0, 0, 0, 42⟩] 50 :=
  get_latest_data_error_handling [⟨1, 0, 0, 0, 0, 42⟩] 50 (by decide)

/-- C4: on any non-empty newest-first batch, the chart series built for a
metric has non-decreasing timestamps: the batch is re-sorted ascending, so
the output is oldest-first. -/
theorem build_sorted_ascending (rows : List ReadingRecord) (metric : ReadingRecord → ℚ)
    (hne : rows ≠ [])
    (hdesc : List.Sorted (fun a b : ReadingRecord =>
      displayTimestamp b ≤ displayTimestamp a) rows) :
    List.Sorted (fun p q : Int × ℚ => p.1 ≤ q.1) (buildSeries rows metric) := by
  unfold buildSeries sortByTimestamp
  exact List.Pairwise.map _ (fun a b hab => hab)
    (List.sorted_insertionSort
      (fun a b : ReadingRecord => displayTimestamp a ≤ displayTimestamp b) rows)

/-- Witness for C4 at a concrete two-row newest-first batch. -/
theorem build_sorted_ascending_witness :
    List.Sorted (fun p q : Int × ℚ => p.1 ≤ q.1)
      (buildSeries [⟨2, 200, 0, 0, 0, 75⟩, ⟨1, 100, 0, 0, 0, 60⟩] (fun x => x.aqi)) :=
  build_sorted_ascending [⟨2, 200, 0, 0, 0, 75⟩, ⟨1, 100, 0, 0, 0, 60⟩]
    (fun x => x.aqi) (by simp) (by decide)

/-- C8: the series built for a metric is a permutation of the batch's
(timestamp, value) pairs — every pair is preserved with its multiplicity,
none duplicated, none dropped — for batches of every size, in particular
0, 1 and 1000. -/
theorem build_roundtrip (rows : List ReadingRecord) (metric : ReadingRecord → ℚ) :
    List.Perm (buildSeries rows metric)
      (rows.map (fun r => (displayTimestamp r, metric r))) ∧
    ∀ p : Int × ℚ, (buildSeries rows metric).countP (fun q => q = p) =
      (rows.map (fun r => (displayTimestamp r, metric r))).countP (fun q => q = p) := by
  have h : List.Perm (buildSeries rows metric)
      (rows.map (fun r => (displayTimestamp r, metric r))) :=
    (List.perm_insertionSort _ rows).map (fun r => (displayTimestamp r, metric r))
  exact ⟨h, fun p => h.countP_eq (fun q => q = p)⟩

/-- Witness for C8 at a concrete two-row batch. -/
theorem build_roundtrip_witness :
    List.Perm (buildSeries [⟨2, 200, 0, 0, 0, 75⟩, ⟨1, 100, 0, 0, 0, 60⟩] (fun x => x.aqi))
      ([⟨2, 200, 0, 0, 0, 75⟩, ⟨1, 100, 0, 0, 0, 60⟩].map
        (fun r : ReadingRecord => (displayTimestamp r, r.aqi))) :=
  (build_roundtrip [⟨2, 200, 0, 0, 0, 75⟩, ⟨1, 100, 0, 0, 0, 60⟩] (fun x => x.aqi)).1

/-- C5: on a non-empty newest-first batch (sorted descending by id),
`latest` returns the first element, which is the row of maximum id; on the
empty batch it fails, returning `none`. -/
theorem latest_head_max_id :
    (∀ rows : List ReadingRecord, rows ≠ [] →
      List.Sorted (fun a b : ReadingRecord => b.id ≤ a.id) rows →
      ∃ r, latest rows = some r ∧ rows.head? = some r ∧ ∀ s ∈ rows, s.id ≤ r.id) ∧
    latest [] = none := by
  refine ⟨fun rows hne hdesc => ?_, rfl⟩
  match rows with
  | r :: rest =>
    refine ⟨r, rfl, rfl, fun s hs => ?_⟩
    rcases List.mem_cons.mp hs with h | h
    · exact h ▸ le_refl r.id
    · exact (List.sorted_cons.mp hdesc).1 s h

/-- Witness for C5: on the batch with ids 5, 4, 3 (newest first), `latest`
returns the id-5 record. -/
theorem latest_head_max_id_witness :
    ∃ r, latest [⟨5, 500, 0, 0, 0, 10⟩, ⟨4, 400, 0, 0, 0, 20⟩, ⟨3, 300, 0, 0, 0, 30⟩] =
        some r ∧
      List.head? [⟨5, 500, 0, 0, 0, 10⟩, ⟨4, 400, 0, 0, 0, 20⟩, ⟨3, 300, 0, 0, 0, 30⟩] =
        some r ∧
      ∀ s ∈ [⟨5, 500, 0, 0, 0, 10⟩, ⟨4, 400, 0, 0, 0, 20⟩,
        (⟨3, 300, 0, 0, 0, 30⟩ : ReadingRecord)], s.id ≤ r.id :=
  latest_head_max_id.1 _ (by simp) (by decide)

/-- C2: a refresh cycle whose fetch is empty renders the explicit
"Connecting to cloud..." indicator regardless of the previous frame, and
that indicator is distinct from every monitor frame, so no previous
cycle's frame is left visible as if current. -/
theorem live_empty_clears_frame :
    (∀ prev : LiveFrame, liveStep prev [] = LiveFrame.connecting) ∧
    ∀ (a : Int) (b : SeverityBand) (c : String) (t h : ℚ) (ts : Int)
      (ch : List (Int × ℚ)),
      LiveFrame.connecting ≠ LiveFrame.monitor a b c t h ts ch :=
  ⟨fun _ => rfl, fun _ _ _ _ _ _ _ h => LiveFrame.noConfusion h⟩

/-- Witness for C2: after a cycle that rendered a monitor frame, an empty
fetch renders the connecting indicator, not that frame. -/
theorem live_empty_clears_frame_witness :
    liveStep (LiveFrame.monitor 42 SeverityBand.Good "#00e400" 0 0 0 []) [] =
      LiveFrame.connecting ∧
    LiveFrame.connecting ≠ LiveFrame.monitor 42 SeverityBand.Good "#00e400" 0 0 0 [] :=
  ⟨live_empty_clears_frame.1 _, live_empty_clears_frame.2 42 SeverityBand.Good "#00e400" 0 0 0 []⟩

/-- C9: an empty history fetch renders the explicit "No data found."
indicator, and every non-empty batch — including an all-zero one — renders
a history frame distinct from that indicator; `show_history` is a total
function, so it never crashes. -/
theorem history_empty_no_data :
    show_history [] = HistoryFrame.noData ∧
    ∀ rows : List ReadingRecord, rows ≠ [] →
      ∃ a t h, show_history rows = HistoryFrame.history a t h rows ∧
        HistoryFrame.history a t h rows ≠ HistoryFrame.noData := by
  refine ⟨rfl, fun rows hne => ?_⟩
  match rows with
  | r :: rest => exact ⟨_, _, _, rfl, fun h => HistoryFrame.noConfusion h⟩

/-- Witness for C9 at the all-zero one-row dataset: it renders a history
frame, distinguishable from the no-data indicator. -/
theorem history_empty_no_data_witness :
    ∃ a t h, show_history [⟨1, 0, 0, 0, 0, 0⟩] =
        HistoryFrame.history a t h [⟨1, 0, 0, 0, 0, 0⟩] ∧
      HistoryFrame.history a t h [⟨1, 0, 0, 0, 0, 0⟩] ≠ HistoryFrame.noData :=
  history_empty_no_data.2 [⟨1, 0, 0, 0, 0, 0⟩] (by simp)

/-- C10: on every non-empty batch the live view displays and classifies
`int(latest['AQI'])`, the stored AQI truncated toward zero; in particular
a stored AQI of 50.9 truncates to 50 and is classified Good, not
Moderate. -/
theorem live_aqi_truncated (r : ReadingRecord) (rest : List ReadingRecord) :
    show_live_monitor (r :: rest) =
      LiveFrame.monitor (intTrunc r.aqi) (classify (intTrunc r.aqi))
        (bandColor (classify (intTrunc r.aqi))) r.temperature r.humidity
        (displayTimestamp r) (buildSeries (r :: rest) (fun x => x.aqi)) ∧
    intTrunc (509 / 10 : ℚ) = 50 ∧
    classify (intTrunc (509 / 10 : ℚ)) = SeverityBand.Good ∧
    classify (intTrunc (509 / 10 : ℚ)) ≠ SeverityBand.Moderate := by
  have h50 : intTrunc (509 / 10 : ℚ) = 50 := by
    norm_num [intTrunc]
    decide
  refine ⟨rfl, h50, ?_, ?_⟩
  · rw [h50]; decide
  · rw [h50]; decide

/-- Witness for C10 at a concrete one-row batch with stored AQI 50.9. -/
theorem live_aqi_truncated_witness :
    show_live_monitor [⟨7, 1000, 0, 0, 0, 509 / 10⟩] =
      LiveFrame.monitor (intTrunc (509 / 10 : ℚ)) (classify (intTrunc (509 / 10 : ℚ)))
        (bandColor (classify (intTrunc (509 / 10 : ℚ)))) 0 0
        (displayTimestamp ⟨7, 1000, 0, 0, 0, 509 / 10⟩)
        (buildSeries [⟨7, 1000, 0, 0, 0, 509 / 10⟩] (fun x => x.aqi)) ∧
    intTrunc (509 / 10 : ℚ) = 50 ∧
    classify (intTrunc (509 / 10 : ℚ)) = SeverityBand.Good ∧
    classify (intTrunc (509 / 10 : ℚ)) ≠ SeverityBand.Moderate :=
  live_aqi_truncated ⟨7, 1000, 0, 0, 0, 509 / 10⟩ []

end AqiDashboard
